import Mathlib

/-!
Shallow embedding of the portfolio-backend feedback service.

The embedding covers:

* `src/db.ts` — the lazily memoized database client (`getDb`);
* `src/routes/feedback.ts` (two variants, one tracking the client IP,
  one not) — Zod body validation, GET / POST / DELETE handlers over the
  `feedback` collection;
* the Socket.IO `chat:send` handler of the two entry-point variants
  (`src/index.ts` and the variant without per-connection IP capture).

Modelling conventions:

* The Mongo `feedback` collection is a list of records plus a counter
  used to generate fresh document ids; `insertOne` appends the record
  with a freshly generated 24-hex-character id.
* Timestamps (`new Date()`) are natural numbers supplied to each handler
  as the parameter `now` — the server clock at the moment of handling.
* JSON body fields are `Option String`: `none` for an absent key,
  `some s` for a string value.  A possible client-supplied `createdAt`
  key is carried in the raw body so that we can state that the schema
  strips it; Zod strips unknown keys and the handlers never read it.
* Effects on the database are traced as a `List StoreOp` so that
  "performs no store operation" is expressible.
* `ObjectId` equality is modelled as equality of canonical hex strings.
-/

/-- One stored document of the `feedback` collection.  The two route
variants store different client-identifying fields, so both are carried
as options (`clientIp` by the IP-tracking variant and the main entry
point, `clientId` by the secondary entry-point variant). -/
structure Feedback where
  id : String
  slug : String
  name : String
  message : String
  email : Option String
  clientIp : Option String
  clientId : Option String
  createdAt : Nat
deriving DecidableEq, Repr

/-- The `feedback` collection: stored documents plus the state of the id
generator. -/
structure Store where
  records : List Feedback
  nextId : Nat
deriving DecidableEq, Repr

/-- Hex digit characters used by generated ObjectIds. -/
def hexChar (n : Nat) : Char :=
  if n < 10 then Char.ofNat (48 + n) else Char.ofNat (97 + (n - 10))

/-- The 24-hex-character id the store assigns to the `n`-th insert. -/
def genId (n : Nat) : String :=
  let ds := (Nat.toDigits 16 n).map (fun c => c.toLower)
  String.mk (List.replicate (24 - ds.length) (Char.ofNat 48) ++ ds)

/-- `collection.insertOne(doc)`: the store assigns a fresh id, appends
the document and returns the generated id. -/
def insertOne (s : Store) (doc : Feedback) : String × Store :=
  let i := genId s.nextId
  (i, ⟨s.records ++ [{ doc with id := i }], s.nextId + 1⟩)

/-- Most-recent-first order on feedback records (`sort({createdAt: -1})`). -/
def moreRecent (a b : Feedback) : Prop := b.createdAt ≤ a.createdAt

instance : DecidableRel moreRecent :=
  fun a b => inferInstanceAs (Decidable (b.createdAt ≤ a.createdAt))

instance : IsTotal Feedback moreRecent :=
  ⟨fun a b => Nat.le_total b.createdAt a.createdAt⟩

instance : IsTrans Feedback moreRecent :=
  ⟨fun _ _ _ h1 h2 => Nat.le_trans h2 h1⟩

/-- `find({slug}).sort({createdAt:-1}).limit(150).toArray()`. -/
def listBySlug (s : Store) (slug : String) : List Feedback :=
  (((s.records.filter (fun r => r.slug == slug)).insertionSort moreRecent).take 150)

/-- `deleteOne({_id})`: removes the first document with the given id;
returns whether a document was removed (`deletedCount` 1 versus 0). -/
def deleteById (s : Store) (oid : String) : Bool × Store :=
  if s.records.any (fun r => r.id == oid) then
    (true, ⟨s.records.eraseP (fun r => r.id == oid), s.nextId⟩)
  else
    (false, s)

/-- Store operations a handler may perform, traced for the claims that a
handler never touches the store. -/
inductive StoreOp where
  | getDbOp
  | createIndexOp
  | findOp
  | insertOp
  | deleteOp
deriving DecidableEq, Repr

/-! ### Email format (`z.string().email()`)

Zod validates emails with a fixed case-insensitive regular expression:
a local part over letters, digits, underscore, apostrophe, plus, hyphen
and dot — not starting with a dot, containing no two consecutive dots,
and not ending in a dot or apostrophe — then a single at-sign, then one
or more labels (a letter or digit followed by letters, digits or
hyphens), each followed by a dot, and finally at least two letters.
The functions below implement it directly on the character list of the
candidate string. -/

/-- ASCII letter. -/
def isAsciiAlpha (c : Char) : Bool :=
  (65 ≤ c.toNat && c.toNat ≤ 90) || (97 ≤ c.toNat && c.toNat ≤ 122)

/-- ASCII digit. -/
def isAsciiDigit (c : Char) : Bool :=
  48 ≤ c.toNat && c.toNat ≤ 57

/-- Characters allowed anywhere in the local part of an email:
letters, digits, underscore, apostrophe (code 39), plus, hyphen, dot. -/
def isLocalChar (c : Char) : Bool :=
  isAsciiAlpha c || isAsciiDigit c || c == Char.ofNat 95 || c == Char.ofNat 39 ||
    c == Char.ofNat 43 || c == Char.ofNat 45 || c == Char.ofNat 46

/-- Characters allowed as the final character of the local part
(no dot, no apostrophe). -/
def isLocalLastChar (c : Char) : Bool :=
  isAsciiAlpha c || isAsciiDigit c || c == Char.ofNat 95 ||
    c == Char.ofNat 43 || c == Char.ofNat 45

/-- Whether the character list contains two consecutive dots. -/
def hasDoubleDot : List Char → Bool
  | c :: d :: rest => (c == Char.ofNat 46 && d == Char.ofNat 46) || hasDoubleDot (d :: rest)
  | _ => false

/-- The local part of the email: non-empty, does not start with a dot,
no `..`, all characters in the local class, last character in the
restricted class. -/
def localPartOk (cs : List Char) : Bool :=
  match cs, cs.reverse with
  | c :: _, lastc :: _ =>
      !(c == Char.ofNat 46) && !hasDoubleDot cs && cs.all isLocalChar &&
        isLocalLastChar lastc
  | _, _ => false

/-- One non-final domain label: starts with a letter or digit, continues
with letters, digits or hyphens. -/
def labelOk : List Char → Bool
  | [] => false
  | c :: rest =>
      (isAsciiAlpha c || isAsciiDigit c) &&
        rest.all (fun d => isAsciiAlpha d || isAsciiDigit d || d == Char.ofNat 45)

/-- The final domain label: at least two letters. -/
def tldOk (cs : List Char) : Bool :=
  2 ≤ cs.length && cs.all isAsciiAlpha

/-- The domain part: one or more labels followed by a final label of at
least two letters, separated by dots. -/
def domainOk (cs : List Char) : Bool :=
  match (cs.splitOn (Char.ofNat 46)).reverse with
  | tld :: rest => !rest.isEmpty && tldOk tld && rest.all labelOk
  | [] => false

/-- Zod email validity: a local part and a domain part separated by a
single `@`. -/
def isEmail (s : String) : Bool :=
  match s.toList.splitOn (Char.ofNat 64) with
  | [loc, dom] => localPartOk loc && domainOk dom
  | _ => false

/-! ### Body validation (`BodySchema.safeParse`)

The schema of both route variants:
`slug: z.string().min(1).max(200)`,
`name: z.string().trim().min(1).max(40).default("익명").optional()`,
`message: z.string().trim().min(1).max(1000)`,
`email: z.string().email().optional().or(z.literal(""))`,
`hp: z.string().optional()`.
`ZodOptional` short-circuits on an absent value, so the `default` never
fires inside the schema; the handler applies the placeholder through a
destructuring default.  Unknown keys (such as a client-supplied
`createdAt`) are stripped. -/

/-- Characters removed by JavaScript `String.prototype.trim` (as used by
`z.string().trim()` and `hp.trim()`): ASCII whitespace, no-break space
and the byte-order mark. -/
def isTrimChar (c : Char) : Bool :=
  c.toNat == 9 || c.toNat == 10 || c.toNat == 11 || c.toNat == 12 ||
    c.toNat == 13 || c.toNat == 32 || c.toNat == 160 || c.toNat == 65279

/-- Drop trim characters from both ends of a character list. -/
def trimChars (cs : List Char) : List Char :=
  ((cs.dropWhile isTrimChar).reverse.dropWhile isTrimChar).reverse

/-- JavaScript `s.trim()`. -/
def jsTrim (s : String) : String :=
  String.mk (trimChars s.toList)

/-- A JSON request body as read by the schema: each field is absent or a
string; `createdAt` is an unknown key the schema strips. -/
structure RawBody where
  slug : Option String
  name : Option String
  message : Option String
  email : Option String
  hp : Option String
  createdAt : Option Nat
deriving DecidableEq, Repr

/-- The parsed body (`parsed.data`): `name`, `message` are trimmed by
the schema; `email` is a valid email or the empty string when present. -/
structure ValidBody where
  slug : String
  name : Option String
  message : String
  email : Option String
  hp : Option String
deriving DecidableEq, Repr

/-- `slug: z.string().min(1).max(200)`. -/
def checkSlug : Option String → Option String
  | some s => if 1 ≤ s.length && s.length ≤ 200 then some s else none
  | none => none

/-- `name: z.string().trim().min(1).max(40).default("익명").optional()`. -/
def checkName : Option String → Option (Option String)
  | none => some none
  | some s =>
      let t := jsTrim s
      if 1 ≤ t.length && t.length ≤ 40 then some (some t) else none

/-- `message: z.string().trim().min(1).max(1000)`. -/
def checkMessage : Option String → Option String
  | none => none
  | some s =>
      let t := jsTrim s
      if 1 ≤ t.length && t.length ≤ 1000 then some t else none

/-- `email: z.string().email().optional().or(z.literal(""))`. -/
def checkEmail : Option String → Option (Option String)
  | none => some none
  | some s => if isEmail s then some (some s) else if s == "" then some (some "") else none

/-- `hp: z.string().optional()`. -/
def checkHp : Option String → Option (Option String)
  | none => some none
  | some s => some (some s)

/-- `BodySchema.safeParse`: success with the parsed data, or the list of
fields carrying validation issues. -/
def validate (raw : RawBody) : Except (List String) ValidBody :=
  match checkSlug raw.slug, checkName raw.name, checkMessage raw.message,
      checkEmail raw.email, checkHp raw.hp with
  | some sl, some nm, some ms, some em, some h => .ok ⟨sl, nm, ms, em, h⟩
  | cs, cn, cm, ce, _ =>
      .error ((if cs.isNone then ["slug"] else []) ++
        (if cn.isNone then ["name"] else []) ++
        (if cm.isNone then ["message"] else []) ++
        (if ce.isNone then ["email"] else []))

/-! ### HTTP handlers (`src/routes/feedback.ts`, both variants) -/

/-- One element of the GET response array in the IP-tracking route
variant: `{_id, slug, name, message, clientIp, createdAt}` — no email. -/
structure FeedbackItem where
  id : String
  slug : String
  name : String
  message : String
  clientIp : Option String
  createdAt : Nat
deriving DecidableEq, Repr

/-- One element of the GET response array in the other route variant:
`{_id, slug, name, message, createdAt}` — no email, no client IP. -/
structure FeedbackItemNoIp where
  id : String
  slug : String
  name : String
  message : String
  createdAt : Nat
deriving DecidableEq, Repr

/-- The GET response mapping of the IP-tracking variant. -/
def projectItem (r : Feedback) : FeedbackItem :=
  ⟨r.id, r.slug, r.name, r.message, r.clientIp, r.createdAt⟩

/-- The GET response mapping of the variant without IP tracking. -/
def projectItemNoIp (r : Feedback) : FeedbackItemNoIp :=
  ⟨r.id, r.slug, r.name, r.message, r.createdAt⟩

/-- The response of `GET /api/feedback`. -/
structure GetResp where
  status : Nat
  success : Bool
  data : List FeedbackItem
  count : Nat
deriving DecidableEq, Repr

/-- `router.get("/")`: `String(req.query.slug ?? "")` is empty for a
missing or empty parameter, which returns 400 before any store access;
otherwise the handler acquires the database, ensures the index and runs
the capped, sorted query. -/
def getHandler (slugParam : Option String) (s : Store) : GetResp × List StoreOp :=
  let slug := slugParam.getD ""
  if slug == "" then
    (⟨400, false, [], 0⟩, [])
  else
    let items := (listBySlug s slug).map projectItem
    (⟨200, true, items, items.length⟩, [.getDbOp, .createIndexOp, .findOp])

/-- The response of `POST /api/feedback`. -/
structure PostResp where
  status : Nat
  success : Bool
  id : Option String
  details : List String
deriving DecidableEq, Repr

/-- The placeholder name, applied by `const { name = "익명" } = parsed.data`. -/
def anonName : String := "익명"

/-- `data.name || "익명"` of the chat handlers and `email || undefined`
of the POST handler coerce falsy strings; `orElseNonEmpty` models
`o || fallback-to-none` on an optional string. -/
def nonEmptyOpt (o : Option String) : Option String :=
  match o with
  | some s => if s == "" then none else some s
  | none => none

/-- `router.post("/")` of the IP-tracking variant: validate, honeypot
check (`if (hp && hp.trim())` returns success without touching the
store), then insert `{slug, name, message, email || undefined, clientIp,
createdAt: new Date()}` and return 201 with the generated id. -/
def postHandler (now : Nat) (clientIp : String) (raw : RawBody) (s : Store) :
    PostResp × Store × List StoreOp :=
  match validate raw with
  | .error errs => (⟨400, false, none, errs⟩, s, [])
  | .ok v =>
      let name := v.name.getD anonName
      match v.hp with
      | some h =>
          if !(h == "") && !(jsTrim h == "") then
            (⟨200, true, none, []⟩, s, [])
          else
            let doc : Feedback :=
              ⟨"", v.slug, name, v.message, nonEmptyOpt v.email, some clientIp, none, now⟩
            let (i, s2) := insertOne s doc
            (⟨201, true, some i, []⟩, s2, [.getDbOp, .insertOp])
      | none =>
          let doc : Feedback :=
            ⟨"", v.slug, name, v.message, nonEmptyOpt v.email, some clientIp, none, now⟩
          let (i, s2) := insertOne s doc
          (⟨201, true, some i, []⟩, s2, [.getDbOp, .insertOp])

/-- `ObjectId.isValid` on a string: a 12-character string, or 24
hexadecimal characters. -/
def isHexDigitCh (c : Char) : Bool :=
  isAsciiDigit c || (97 ≤ c.toNat && c.toNat ≤ 102) || (65 ≤ c.toNat && c.toNat ≤ 70)

/-- Syntactic validity of a store identifier in a request path. -/
def isValidObjectId (id : String) : Bool :=
  id.length == 12 || (id.length == 24 && id.toList.all isHexDigitCh)

/-- The response of `DELETE /api/feedback/:id`. -/
structure DeleteResp where
  status : Nat
  success : Bool
deriving DecidableEq, Repr

/-- `router.delete("/:id")`: 400 on a malformed id before any store
access; otherwise `deleteOne`, with 404 when `deletedCount` is 0 and 200
when a document was removed. -/
def deleteHandler (idParam : String) (s : Store) :
    DeleteResp × Store × List StoreOp :=
  if isValidObjectId idParam then
    let (deleted, s2) := deleteById s idParam
    if deleted then (⟨200, true⟩, s2, [.getDbOp, .deleteOp])
    else (⟨404, false⟩, s2, [.getDbOp, .deleteOp])
  else
    (⟨400, false⟩, s, [])

/-! ### The database gateway (`src/db.ts`)

`getDb` memoizes a module-level `client`.  The assignment
`client = new MongoClient(...)` happens before `await client.connect()`;
the catch block logs and rethrows without resetting `client`, so after a
failed connection attempt the module variable still holds the (never
connected) client. -/

/-- The module-level `MongoClient` value, tracking whether its
`connect()` ever succeeded. -/
structure MongoClientM where
  connected : Bool
deriving DecidableEq, Repr

/-- The module state of `src/db.ts`: `let client: MongoClient | null`. -/
structure DbState where
  client : Option MongoClientM
deriving DecidableEq, Repr

/-- What `getDb` returns: the database handle (`client.db(dbName)`),
carrying which client backs it, or the propagated connection error. -/
inductive DbResult where
  | ok (clientConnected : Bool) (dbName : String)
  | err
deriving DecidableEq, Repr

/-- The full outcome of one `getDb` call: result, updated module state,
and whether this call attempted a connection. -/
structure GetDbOut where
  result : DbResult
  state : DbState
  attemptedConnect : Bool
deriving DecidableEq, Repr

/-- `getDb` of `src/db.ts`.  `connectOk` is whether `client.connect()`
(and the follow-up ping) would succeed on this attempt.  When `client`
is already set the function returns `client.db(dbName)` immediately;
when it is null it assigns a fresh client, attempts to connect, and on
failure rethrows while leaving the assigned client memoized. -/
def getDb (dbName : String) (connectOk : Bool) (st : DbState) : GetDbOut :=
  match st.client with
  | some c => ⟨.ok c.connected dbName, st, false⟩
  | none =>
      if connectOk then
        ⟨.ok true dbName, ⟨some ⟨true⟩⟩, true⟩
      else
        ⟨.err, ⟨some ⟨false⟩⟩, true⟩

/-! ### The real-time channel (`socket.on("chat:send")`, both entry
points) -/

/-- The payload of a `chat:send` event; `createdAt` models a
client-supplied timestamp key the handlers never read. -/
structure ChatData where
  slug : String
  name : Option String
  message : String
  clientId : Option String
  createdAt : Option Nat
deriving DecidableEq, Repr

/-- `data.name || "익명"`: the placeholder is used when the name is
absent or the empty string. -/
def nameOrAnon (o : Option String) : String :=
  match o with
  | some n => if n == "" then anonName else n
  | none => anonName

/-- The payload of a `chat:newMessage` broadcast.  In the main entry
point it is `{...newMsg, _id: result.insertedId.toString()}`; in the
secondary variant it is `newMsg` itself, which the driver has mutated
in place during `insertOne`, attaching the generated id — so both
payloads carry the id of the persisted record. -/
structure BroadcastMsg where
  id : Option String
  slug : String
  name : String
  message : String
  clientIp : Option String
  clientId : Option String
  createdAt : Nat
deriving DecidableEq, Repr

/-- One `io.emit` call: the event name, the sockets it reaches (all
currently connected clients), and the payload. -/
structure Emit where
  event : String
  recipients : List Nat
  payload : BroadcastMsg
deriving DecidableEq, Repr

/-- `socket.on("chat:send")` of `src/index.ts`: build
`{slug, name || "익명", message, clientIp, createdAt: new Date()}`,
insert it, and broadcast the record extended with the generated id to
every connected socket.  `dbOk = false` models a store failure anywhere
in the try block: the catch logs and swallows it, so nothing is stored
and nothing is emitted. -/
def chatSendMain (now : Nat) (clientIp : String) (connected : List Nat)
    (data : ChatData) (s : Store) (dbOk : Bool) : Store × List Emit :=
  if dbOk then
    let doc : Feedback :=
      ⟨"", data.slug, nameOrAnon data.name, data.message, none, some clientIp, none, now⟩
    let (i, s2) := insertOne s doc
    (s2, [⟨"chat:newMessage", connected,
      ⟨some i, doc.slug, doc.name, doc.message, doc.clientIp, doc.clientId, doc.createdAt⟩⟩])
  else
    (s, [])

/-- `socket.on("chat:send")` of the secondary entry-point variant: the
stored record carries `clientId: data.clientId`, and the broadcast
payload is `newMsg` itself.  With the default driver options (no
`forceServerObjectId`, no custom id factory) `collection.insertOne`
generates the id client-side and mutates the passed document in place,
so by the time of `io.emit` the payload carries the generated id,
serialized as its 24-hex string. -/
def chatSendVariant (now : Nat) (connected : List Nat)
    (data : ChatData) (s : Store) (dbOk : Bool) : Store × List Emit :=
  if dbOk then
    let doc : Feedback :=
      ⟨"", data.slug, nameOrAnon data.name, data.message, none, none, data.clientId, now⟩
    let (i, s2) := insertOne s doc
    (s2, [⟨"chat:newMessage", connected,
      ⟨some i, doc.slug, doc.name, doc.message, doc.clientIp, doc.clientId, doc.createdAt⟩⟩])
  else
    (s, [])

/-! ### Helper lemmas -/

/-- Every record returned by `listBySlug` comes from the store and
matches the requested slug. -/
lemma mem_listBySlug {s : Store} {q : String} {r : Feedback}
    (h : r ∈ listBySlug s q) : r ∈ s.records ∧ r.slug = q := by
  unfold listBySlug at h
  have h1 := List.take_subset 150 _ h
  have h2 := (List.perm_insertionSort moreRecent
    (s.records.filter (fun r => r.slug == q))).subset h1
  have h3 := List.mem_filter.mp h2
  exact ⟨h3.1, by simpa using h3.2⟩

/-- After erasing the record with a given id from a list whose ids are
pairwise distinct, no record with that id remains. -/
lemma any_id_eraseP_eq_false (x : String) :
    ∀ l : List Feedback, (l.map Feedback.id).Nodup →
      (l.eraseP (fun r => r.id == x)).any (fun r => r.id == x) = false := by
  intro l
  induction l with
  | nil => intro _; rfl
  | cons a l ih =>
      intro hnd
      rw [List.map_cons, List.nodup_cons] at hnd
      by_cases hax : a.id = x
      · have hb : (a.id == x) = true := by simpa using hax
        rw [List.eraseP_cons, hb, cond_true, List.any_eq_false]
        intro r hr hpr
        exact hnd.1 (by
          rw [List.mem_map]
          exact ⟨r, hr, by rw [eq_of_beq hpr, hax]⟩)
      · have hb : (a.id == x) = false := by simpa using hax
        rw [List.eraseP_cons, hb, cond_false, List.any_cons, ih hnd.2, hb]
        rfl

/-! ### Claims -/

/-- C5: for every non-empty slug and every store state, `listBySlug`
returns records that all belong to the store and match the slug, sorted
most-recent-first by `createdAt`, never more than 150 of them; and when
at most 150 records match, it returns exactly the matching records (as
a permutation). -/
theorem listBySlug_sorted_capped (s : Store) (slug : String) (hs : slug ≠ "") :
    (listBySlug s slug).length ≤ 150 ∧
    (∀ r ∈ listBySlug s slug, r ∈ s.records ∧ r.slug = slug) ∧
    List.Sorted moreRecent (listBySlug s slug) ∧
    ((s.records.filter (fun r => r.slug == slug)).length ≤ 150 →
      List.Perm (listBySlug s slug) (s.records.filter (fun r => r.slug == slug))) := by
  refine ⟨?_, ?_, ?_, ?_⟩
  · exact List.length_take_le 150 _
  · intro r hr
    exact mem_listBySlug hr
  · exact (List.sorted_insertionSort moreRecent _).sublist (List.take_sublist 150 _)
  · intro hlen
    unfold listBySlug
    have hperm := List.perm_insertionSort moreRecent
      (s.records.filter (fun r => r.slug == slug))
    rw [List.take_of_length_le (by rw [hperm.length_eq]; exact hlen)]
    exact hperm

/-- Witness for C5 at a concrete store: three records, two matching the
slug, out of order in the store. -/
theorem listBySlug_sorted_capped_witness :
    (listBySlug ⟨[⟨"a", "/h", "n", "m1", none, none, none, 1⟩,
        ⟨"b", "/h", "n", "m2", none, none, none, 5⟩,
        ⟨"c", "/x", "n", "m3", none, none, none, 9⟩], 3⟩ "/h").length ≤ 150 ∧
    (∀ r ∈ listBySlug ⟨[⟨"a", "/h", "n", "m1", none, none, none, 1⟩,
        ⟨"b", "/h", "n", "m2", none, none, none, 5⟩,
        ⟨"c", "/x", "n", "m3", none, none, none, 9⟩], 3⟩ "/h",
      r ∈ [⟨"a", "/h", "n", "m1", none, none, none, 1⟩,
        ⟨"b", "/h", "n", "m2", none, none, none, 5⟩,
        ⟨"c", "/x", "n", "m3", none, none, none, 9⟩] ∧ r.slug = "/h") := by
  have h := listBySlug_sorted_capped ⟨[⟨"a", "/h", "n", "m1", none, none, none, 1⟩,
    ⟨"b", "/h", "n", "m2", none, none, none, 5⟩,
    ⟨"c", "/x", "n", "m3", none, none, none, 9⟩], 3⟩ "/h" (by decide)
  exact ⟨h.1, h.2.1⟩

/-- C6: a GET request whose slug parameter is missing or empty returns
status 400 and performs no store operation at all. -/
theorem get_missing_slug_no_store_access (slugParam : Option String) (s : Store)
    (h : slugParam = none ∨ slugParam = some "") :
    (getHandler slugParam s).1.status = 400 ∧ (getHandler slugParam s).2 = [] := by
  rcases h with h | h <;> subst h <;> simp [getHandler]

/-- Witness for C6: the missing-parameter case on a non-empty store. -/
theorem get_missing_slug_no_store_access_witness :
    (getHandler none ⟨[⟨"a", "/h", "n", "m", none, none, none, 1⟩], 1⟩).1.status = 400 ∧
    (getHandler none ⟨[⟨"a", "/h", "n", "m", none, none, none, 1⟩], 1⟩).2 = [] :=
  get_missing_slug_no_store_access none ⟨[⟨"a", "/h", "n", "m", none, none, none, 1⟩], 1⟩
    (Or.inl rfl)

/-- C4: DELETE semantics — a malformed id yields 400 with the store
untouched and no store operation; a well-formed id matching nothing
yields 404 with the store untouched; a matching id yields 200 and
removes that record; and with pairwise-distinct stored ids, deleting the
same existing valid id twice yields 200 then 404. -/
theorem delete_status_semantics (idp : String) (s : Store) :
    (isValidObjectId idp = false →
      (deleteHandler idp s).1.status = 400 ∧ (deleteHandler idp s).2.1 = s ∧
      (deleteHandler idp s).2.2 = []) ∧
    (isValidObjectId idp = true → (∀ r ∈ s.records, r.id ≠ idp) →
      (deleteHandler idp s).1.status = 404 ∧ (deleteHandler idp s).2.1 = s) ∧
    (isValidObjectId idp = true → (∃ r ∈ s.records, r.id = idp) →
      (deleteHandler idp s).1.status = 200 ∧
      (deleteHandler idp s).2.1.records = s.records.eraseP (fun r => r.id == idp)) ∧
    (isValidObjectId idp = true → (s.records.map Feedback.id).Nodup →
      (∃ r ∈ s.records, r.id = idp) →
      (deleteHandler idp s).1.status = 200 ∧
      (deleteHandler idp ((deleteHandler idp s).2.1)).1.status = 404) := by
  refine ⟨?_, ?_, ?_, ?_⟩
  · intro hv
    simp [deleteHandler, hv]
  · intro hv hnone
    have hany : (s.records.any (fun r => r.id == idp)) = false := by
      rw [List.any_eq_false]
      intro r hr
      simpa using hnone r hr
    simp [deleteHandler, hv, deleteById, hany]
  · intro hv ⟨r, hr, hid⟩
    have hany : (s.records.any (fun r => r.id == idp)) = true := by
      rw [List.any_eq_true]
      exact ⟨r, hr, by simpa using hid⟩
    simp [deleteHandler, hv, deleteById, hany]
  · intro hv hnd ⟨r, hr, hid⟩
    have hany : (s.records.any (fun r => r.id == idp)) = true := by
      rw [List.any_eq_true]
      exact ⟨r, hr, by simpa using hid⟩
    have hany2 := any_id_eraseP_eq_false idp s.records hnd
    refine ⟨by simp [deleteHandler, hv, deleteById, hany], ?_⟩
    simp [deleteHandler, hv, deleteById, hany, hany2]

/-- Witness for C4: a store with one record whose id is a well-formed
24-hex identifier; the four cases are exercised at that id and at a
malformed and an unknown id. -/
theorem delete_status_semantics_witness :
    (deleteHandler "zzz" ⟨[⟨"000000000000000000000000", "/h", "n", "m", none, none, none, 1⟩],
      1⟩).1.status = 400 ∧
    (deleteHandler "000000000000000000000000"
      ⟨[⟨"000000000000000000000000", "/h", "n", "m", none, none, none, 1⟩], 1⟩).1.status = 200 ∧
    (deleteHandler "000000000000000000000000"
      ((deleteHandler "000000000000000000000000"
        ⟨[⟨"000000000000000000000000", "/h", "n", "m", none, none, none, 1⟩],
          1⟩).2.1)).1.status = 404 := by
  have h1 := (delete_status_semantics "zzz"
    ⟨[⟨"000000000000000000000000", "/h", "n", "m", none, none, none, 1⟩], 1⟩).1 (by decide)
  have h2 := (delete_status_semantics "000000000000000000000000"
    ⟨[⟨"000000000000000000000000", "/h", "n", "m", none, none, none, 1⟩], 1⟩).2.2.2
    (by decide) (by decide)
    ⟨⟨"000000000000000000000000", "/h", "n", "m", none, none, none, 1⟩, by decide, rfl⟩
  exact ⟨h1.1, h2.1, h2.2⟩

/-- Success condition of the slug rule. -/
lemma checkSlug_isSome_iff (o : Option String) :
    (checkSlug o).isSome = true ↔ ∃ s, o = some s ∧ 1 ≤ s.length ∧ s.length ≤ 200 := by
  cases o with
  | none => simp [checkSlug]
  | some s =>
      simp only [checkSlug]
      by_cases h : (1 ≤ s.length && s.length ≤ 200) = true
      · simp only [if_pos h]
        simp only [Bool.and_eq_true, decide_eq_true_eq] at h
        simp [h]
      · simp only [if_neg h]
        simp only [Bool.and_eq_true, decide_eq_true_eq] at h
        simp only [Option.isSome_none]
        constructor
        · intro hc; simp at hc
        · rintro ⟨t, ht, h1, h2⟩
          cases ht
          exact absurd ⟨h1, h2⟩ h

/-- Success condition of the name rule. -/
lemma checkName_isSome_iff (o : Option String) :
    (checkName o).isSome = true ↔
      o = none ∨ ∃ s, o = some s ∧ 1 ≤ (jsTrim s).length ∧ (jsTrim s).length ≤ 40 := by
  cases o with
  | none => simp [checkName]
  | some s =>
      simp only [checkName]
      by_cases h : (1 ≤ (jsTrim s).length && (jsTrim s).length ≤ 40) = true
      · simp only [if_pos h]
        simp only [Bool.and_eq_true, decide_eq_true_eq] at h
        simp [h]
      · simp only [if_neg h]
        simp only [Bool.and_eq_true, decide_eq_true_eq] at h
        simp only [Option.isSome_none]
        constructor
        · intro hc; simp at hc
        · rintro (hc | ⟨t, ht, h1, h2⟩)
          · simp at hc
          · cases ht
            exact absurd ⟨h1, h2⟩ h

/-- Success condition of the message rule. -/
lemma checkMessage_isSome_iff (o : Option String) :
    (checkMessage o).isSome = true ↔
      ∃ s, o = some s ∧ 1 ≤ (jsTrim s).length ∧ (jsTrim s).length ≤ 1000 := by
  cases o with
  | none => simp [checkMessage]
  | some s =>
      simp only [checkMessage]
      by_cases h : (1 ≤ (jsTrim s).length && (jsTrim s).length ≤ 1000) = true
      · simp only [if_pos h]
        simp only [Bool.and_eq_true, decide_eq_true_eq] at h
        simp [h]
      · simp only [if_neg h]
        simp only [Bool.and_eq_true, decide_eq_true_eq] at h
        simp only [Option.isSome_none]
        constructor
        · intro hc; simp at hc
        · rintro ⟨t, ht, h1, h2⟩
          cases ht
          exact absurd ⟨h1, h2⟩ h

/-- Success condition of the email rule. -/
lemma checkEmail_isSome_iff (o : Option String) :
    (checkEmail o).isSome = true ↔
      o = none ∨ o = some "" ∨ ∃ s, o = some s ∧ isEmail s = true := by
  cases o with
  | none => simp [checkEmail]
  | some s =>
      simp only [checkEmail]
      by_cases h : isEmail s = true
      · simp [h]
      · by_cases he : s = ""
        · subst he
          simp [h]
        · have hbe : (s == "") = false := by simpa using he
          simp [h, hbe, he]

/-- The honeypot rule never fails. -/
lemma checkHp_isSome (o : Option String) : (checkHp o).isSome = true := by
  cases o <;> rfl

/-- `safeParse` succeeds exactly when all four fallible field rules do. -/
lemma validate_ok_iff (raw : RawBody) :
    (validate raw).isOk = true ↔
      (checkSlug raw.slug).isSome = true ∧ (checkName raw.name).isSome = true ∧
      (checkMessage raw.message).isSome = true ∧ (checkEmail raw.email).isSome = true := by
  obtain ⟨os, onm, om, oe, oh, oc⟩ := raw
  have hhp := checkHp_isSome oh
  unfold validate
  simp only at hhp ⊢
  cases h1 : checkSlug os <;> cases h2 : checkName onm <;>
    cases h3 : checkMessage om <;> cases h4 : checkEmail oe <;>
      cases h5 : checkHp oh <;> simp_all [Except.isOk, Except.toBool]

/-- A failed `safeParse` always reports at least one offending field. -/
lemma validate_error_ne_nil {raw : RawBody} {errs : List String}
    (h : validate raw = .error errs) : errs ≠ [] := by
  obtain ⟨os, onm, om, oe, oh, oc⟩ := raw
  have hhp := checkHp_isSome oh
  unfold validate at h
  cases h1 : checkSlug os <;> cases h2 : checkName onm <;>
    cases h3 : checkMessage om <;> cases h4 : checkEmail oe <;>
      cases h5 : checkHp oh <;> (try simp_all) <;> (subst h; simp)

/-- C7: schema validation succeeds exactly when the slug is a string of
1–200 characters, the name is absent or has 1–40 characters after
trimming, the message is a string with 1–1000 characters after
trimming, and the email is absent, the empty string, or a valid email
address; any other payload is answered with status 400 carrying the
non-empty field-level error details and leaves the store untouched. -/
theorem validate_iff_rules (raw : RawBody) :
    ((validate raw).isOk = true ↔
      ((∃ s, raw.slug = some s ∧ 1 ≤ s.length ∧ s.length ≤ 200) ∧
       (raw.name = none ∨
         ∃ s, raw.name = some s ∧ 1 ≤ (jsTrim s).length ∧ (jsTrim s).length ≤ 40) ∧
       (∃ s, raw.message = some s ∧ 1 ≤ (jsTrim s).length ∧ (jsTrim s).length ≤ 1000) ∧
       (raw.email = none ∨ raw.email = some "" ∨
         ∃ s, raw.email = some s ∧ isEmail s = true))) ∧
    (∀ errs, validate raw = .error errs →
      errs ≠ [] ∧ ∀ (now : Nat) (ip : String) (s : Store),
        (postHandler now ip raw s).1.status = 400 ∧
        (postHandler now ip raw s).1.details = errs ∧
        (postHandler now ip raw s).2.1 = s) := by
  constructor
  · rw [validate_ok_iff, checkSlug_isSome_iff, checkName_isSome_iff,
      checkMessage_isSome_iff, checkEmail_isSome_iff]
  · intro errs herr
    refine ⟨validate_error_ne_nil herr, ?_⟩
    intro now ip s
    simp [postHandler, herr]

/-- Witness for C7: a minimal valid payload passes, and the empty
payload fails with a 400 response listing the missing fields. -/
theorem validate_iff_rules_witness :
    (validate ⟨some "/home", none, some "hello", none, none, none⟩).isOk = true ∧
    (postHandler 0 "ip" ⟨none, none, none, none, none, none⟩ ⟨[], 0⟩).1.status = 400 ∧
    (postHandler 0 "ip" ⟨none, none, none, none, none, none⟩ ⟨[], 0⟩).1.details =
      ["slug", "message"] := by
  have h1 := (validate_iff_rules ⟨some "/home", none, some "hello", none, none, none⟩).1.mpr
    ⟨⟨"/home", rfl, by decide, by decide⟩, Or.inl rfl,
      ⟨"hello", rfl, by decide, by decide⟩, Or.inl rfl⟩
  have h2 := ((validate_iff_rules ⟨none, none, none, none, none, none⟩).2
    ["slug", "message"] rfl).2 0 "ip" ⟨[], 0⟩
  exact ⟨h1, h2.1, h2.2.1⟩

/-- C1: a POST whose payload passes validation and whose honeypot field
is non-empty after trimming is answered with success (status 200,
`success: true`) without any store operation: the collection is
unchanged, every later list-by-slug is unchanged, and the submitted
message does not appear in any listing unless it was already stored. -/
theorem honeypot_post_succeeds_without_persisting
    (now : Nat) (ip : String) (raw : RawBody) (s : Store) (v : ValidBody) (h : String)
    (hv : validate raw = .ok v) (hhp : v.hp = some h) (ht : jsTrim h ≠ "") :
    (postHandler now ip raw s).1.success = true ∧
    (postHandler now ip raw s).1.status = 200 ∧
    (postHandler now ip raw s).2.1 = s ∧
    (postHandler now ip raw s).2.2 = [] ∧
    (∀ q, listBySlug (postHandler now ip raw s).2.1 q = listBySlug s q) ∧
    ((∀ r ∈ s.records, r.message ≠ v.message) →
      ∀ q r, r ∈ listBySlug (postHandler now ip raw s).2.1 q → r.message ≠ v.message) := by
  have hne : h ≠ "" := fun hh => ht (by rw [hh]; rfl)
  have hb1 : (h == "") = false := by simpa using hne
  have hb2 : (jsTrim h == "") = false := by simpa using ht
  have hout : postHandler now ip raw s = (⟨200, true, none, []⟩, s, []) := by
    simp [postHandler, hv, hhp, hb1, hb2]
  rw [hout]
  refine ⟨rfl, rfl, rfl, rfl, fun q => rfl, ?_⟩
  intro hfresh q r hr
  exact hfresh r (mem_listBySlug hr).1

/-- Witness for C1: a schema-valid payload with honeypot value "x"
against a store that does not contain the message. -/
theorem honeypot_post_succeeds_without_persisting_witness :
    (postHandler 9 "1.2.3.4" ⟨some "/home", none, some "hi", none, some "x", none⟩
      ⟨[], 0⟩).1.success = true ∧
    (postHandler 9 "1.2.3.4" ⟨some "/home", none, some "hi", none, some "x", none⟩
      ⟨[], 0⟩).2.1 = ⟨[], 0⟩ := by
  have h := honeypot_post_succeeds_without_persisting 9 "1.2.3.4"
    ⟨some "/home", none, some "hi", none, some "x", none⟩ ⟨[], 0⟩
    ⟨"/home", none, "hi", none, some "x"⟩ "x" rfl rfl (by decide)
  exact ⟨h.1, h.2.2.1⟩

/-- C8: every insert — a validated POST or a real-time send — stamps the
createdAt field of the stored record with the server clock `now`; a
client-supplied `createdAt` key in the payload changes nothing. -/
theorem insert_stamps_server_createdAt
    (now : Nat) (ip : String) (raw : RawBody) (s : Store) (t : Option Nat) :
    postHandler now ip { raw with createdAt := t } s = postHandler now ip raw s ∧
    (∀ v, validate raw = .ok v →
      (v.hp = none ∨ ∃ h, v.hp = some h ∧ jsTrim h = "") →
      ∃ r, (postHandler now ip raw s).2.1.records = s.records ++ [r] ∧
        r.createdAt = now) ∧
    (∀ (connected : List Nat) (data : ChatData) (t2 : Option Nat),
      chatSendMain now ip connected { data with createdAt := t2 } s true =
        chatSendMain now ip connected data s true ∧
      chatSendVariant now connected { data with createdAt := t2 } s true =
        chatSendVariant now connected data s true ∧
      (∃ r, (chatSendMain now ip connected data s true).1.records = s.records ++ [r] ∧
        r.createdAt = now) ∧
      (∃ r, (chatSendVariant now connected data s true).1.records = s.records ++ [r] ∧
        r.createdAt = now)) := by
  refine ⟨?_, ?_, ?_⟩
  · obtain ⟨os, onm, om, oe, oh, oc⟩ := raw
    rfl
  · intro v hv hhp
    rcases hhp with hnone | ⟨h, hh, htr⟩
    · refine ⟨⟨genId s.nextId, v.slug, v.name.getD anonName, v.message,
        nonEmptyOpt v.email, some ip, none, now⟩, ?_, rfl⟩
      simp [postHandler, hv, hnone, insertOne]
    · have hb : (jsTrim h == "") = true := by simpa using htr
      refine ⟨⟨genId s.nextId, v.slug, v.name.getD anonName, v.message,
        nonEmptyOpt v.email, some ip, none, now⟩, ?_, rfl⟩
      simp [postHandler, hv, hh, hb, insertOne]
  · intro connected data t2
    refine ⟨?_, ?_, ?_, ?_⟩
    · obtain ⟨ds, dn, dm, dc, dt⟩ := data
      rfl
    · obtain ⟨ds, dn, dm, dc, dt⟩ := data
      rfl
    · exact ⟨⟨genId s.nextId, data.slug, nameOrAnon data.name, data.message,
        none, some ip, none, now⟩, by simp [chatSendMain, insertOne], rfl⟩
    · exact ⟨⟨genId s.nextId, data.slug, nameOrAnon data.name, data.message,
        none, none, data.clientId, now⟩, by simp [chatSendVariant, insertOne], rfl⟩

/-- Witness for C8: a valid POST payload with no honeypot, inserted into
the empty store at server time 42. -/
theorem insert_stamps_server_createdAt_witness :
    ∃ r, (postHandler 42 "1.2.3.4" ⟨some "/home", none, some "hi", none, none, some 7⟩
      ⟨[], 0⟩).2.1.records = [] ++ [r] ∧ r.createdAt = 42 :=
  (insert_stamps_server_createdAt 42 "1.2.3.4"
    ⟨some "/home", none, some "hi", none, none, some 7⟩ ⟨[], 0⟩ none).2.1
    ⟨"/home", none, "hi", none, none⟩ rfl (Or.inl rfl)

/-- C9: when the insert of a `chat:send` event fails, both entry-point
variants catch and swallow the error: no broadcast is emitted to anyone
and the collection is unchanged. -/
theorem chat_send_failure_swallowed (now : Nat) (ip : String) (connected : List Nat)
    (data : ChatData) (s : Store) :
    chatSendMain now ip connected data s false = (s, []) ∧
    chatSendVariant now connected data s false = (s, []) := by
  constructor <;> rfl

/-- C3: a successful `chat:send` produces exactly one `chat:newMessage`
broadcast to every currently connected client, including the sender,
and in both entry points the payload is the persisted record together
with its store-generated id. -/
theorem chat_send_broadcast_includes_id (now : Nat) (ip : String) (connected : List Nat)
    (sender : Nat) (data : ChatData) (s : Store) (hmem : sender ∈ connected) :
    (∃ r, (chatSendMain now ip connected data s true).1.records = s.records ++ [r] ∧
      (chatSendMain now ip connected data s true).2 =
        [⟨"chat:newMessage", connected,
          ⟨some r.id, r.slug, r.name, r.message, r.clientIp, r.clientId, r.createdAt⟩⟩] ∧
      ∀ e ∈ (chatSendMain now ip connected data s true).2, sender ∈ e.recipients) ∧
    (∃ r, (chatSendVariant now connected data s true).1.records = s.records ++ [r] ∧
      (chatSendVariant now connected data s true).2 =
        [⟨"chat:newMessage", connected,
          ⟨some r.id, r.slug, r.name, r.message, r.clientIp, r.clientId, r.createdAt⟩⟩] ∧
      ∀ e ∈ (chatSendVariant now connected data s true).2, sender ∈ e.recipients) := by
  constructor
  · refine ⟨⟨genId s.nextId, data.slug, nameOrAnon data.name, data.message,
      none, some ip, none, now⟩, ?_, ?_, ?_⟩
    · simp [chatSendMain, insertOne]
    · simp [chatSendMain, insertOne]
    · intro e he
      simp [chatSendMain, insertOne] at he
      rw [he]
      exact hmem
  · refine ⟨⟨genId s.nextId, data.slug, nameOrAnon data.name, data.message,
      none, none, data.clientId, now⟩, ?_, ?_, ?_⟩
    · simp [chatSendVariant, insertOne]
    · simp [chatSendVariant, insertOne]
    · intro e he
      simp [chatSendVariant, insertOne] at he
      rw [he]
      exact hmem

/-- Witness for C3 at a concrete event in both entry points: sender 1
among the connected sockets 1 and 2. -/
theorem chat_send_broadcast_includes_id_witness :
    (∃ r, (chatSendMain 7 "1.2.3.4" [1, 2] ⟨"/h", none, "yo", none, none⟩ ⟨[], 0⟩
      true).1.records = [] ++ [r] ∧
    (chatSendMain 7 "1.2.3.4" [1, 2] ⟨"/h", none, "yo", none, none⟩ ⟨[], 0⟩ true).2 =
      [⟨"chat:newMessage", [1, 2],
        ⟨some r.id, r.slug, r.name, r.message, r.clientIp, r.clientId, r.createdAt⟩⟩] ∧
    ∀ e ∈ (chatSendMain 7 "1.2.3.4" [1, 2] ⟨"/h", none, "yo", none, none⟩ ⟨[], 0⟩ true).2,
      1 ∈ e.recipients) ∧
    (∃ r, (chatSendVariant 7 [1, 2] ⟨"/h", none, "yo", some "cid", none⟩ ⟨[], 0⟩
      true).1.records = [] ++ [r] ∧
    (chatSendVariant 7 [1, 2] ⟨"/h", none, "yo", some "cid", none⟩ ⟨[], 0⟩ true).2 =
      [⟨"chat:newMessage", [1, 2],
        ⟨some r.id, r.slug, r.name, r.message, r.clientIp, r.clientId, r.createdAt⟩⟩] ∧
    ∀ e ∈ (chatSendVariant 7 [1, 2] ⟨"/h", none, "yo", some "cid", none⟩ ⟨[], 0⟩ true).2,
      1 ∈ e.recipients) :=
  ⟨(chat_send_broadcast_includes_id 7 "1.2.3.4" [1, 2] 1 ⟨"/h", none, "yo", none, none⟩
    ⟨[], 0⟩ (by decide)).1,
   (chat_send_broadcast_includes_id 7 "1.2.3.4" [1, 2] 1 ⟨"/h", none, "yo", some "cid", none⟩
    ⟨[], 0⟩ (by decide)).2⟩

/-- C10: the GET response projections contain no email — changing a
email of a stored record does not change its projection in either route
variant, and every returned item is such a projection of a stored
record — even though a valid POST with a non-empty email persists that
email on the stored record. -/
theorem get_response_hides_email (s : Store) (slug : String) (now : Nat) (ip : String)
    (raw : RawBody) :
    (∀ (r : Feedback) (e : Option String),
      projectItem { r with email := e } = projectItem r ∧
      projectItemNoIp { r with email := e } = projectItemNoIp r) ∧
    (∀ it ∈ (getHandler (some slug) s).1.data, ∃ rr ∈ s.records, it = projectItem rr) ∧
    (∀ v em, validate raw = .ok v → v.email = some em → em ≠ "" →
      (v.hp = none ∨ ∃ h, v.hp = some h ∧ jsTrim h = "") →
      ∃ rr, (postHandler now ip raw s).2.1.records = s.records ++ [rr] ∧
        rr.email = some em) := by
  refine ⟨fun r e => ⟨rfl, rfl⟩, ?_, ?_⟩
  · intro it hit
    by_cases hslug : (slug == "") = true
    · simp [getHandler, hslug] at hit
    · simp only [getHandler, Option.getD_some, hslug, Bool.false_eq_true,
        if_false, List.mem_map] at hit
      obtain ⟨rr, hrr, hproj⟩ := hit
      exact ⟨rr, (mem_listBySlug hrr).1, hproj.symm⟩
  · intro v em hv hem hne hhp
    have hopt : nonEmptyOpt v.email = some em := by
      simp [nonEmptyOpt, hem]
      simpa using hne
    rcases hhp with hnone | ⟨h, hh, htr⟩
    · refine ⟨⟨genId s.nextId, v.slug, v.name.getD anonName, v.message,
        nonEmptyOpt v.email, some ip, none, now⟩, ?_, by rw [hopt]⟩
      simp [postHandler, hv, hnone, insertOne]
    · have hb : (jsTrim h == "") = true := by simpa using htr
      refine ⟨⟨genId s.nextId, v.slug, v.name.getD anonName, v.message,
        nonEmptyOpt v.email, some ip, none, now⟩, ?_, by rw [hopt]⟩
      simp [postHandler, hv, hh, hb, insertOne]

/-- Witness for C10: a POST with email address intact in the store and a
GET over a one-record store. -/
theorem get_response_hides_email_witness :
    (∀ it ∈ (getHandler (some "/h")
        ⟨[⟨"a", "/h", "n", "m", some "a@b.co", none, none, 1⟩], 1⟩).1.data,
      ∃ rr ∈ [⟨"a", "/h", "n", "m", some "a@b.co", none, none, 1⟩], it = projectItem rr) ∧
    (∃ rr, (postHandler 3 "ip" ⟨some "/home", none, some "hi", some "a@b.co", none, none⟩
        ⟨[], 0⟩).2.1.records = [] ++ [rr] ∧ rr.email = some "a@b.co") := by
  have h1 := get_response_hides_email
    ⟨[⟨"a", "/h", "n", "m", some "a@b.co", none, none, 1⟩], 1⟩ "/h" 3 "ip"
    ⟨some "/home", none, some "hi", some "a@b.co", none, none⟩
  have h2 := get_response_hides_email ⟨[], 0⟩ "/h" 3 "ip"
    ⟨some "/home", none, some "hi", some "a@b.co", none, none⟩
  exact ⟨h1.2.1, h2.2.2 ⟨"/home", none, "hi", some "a@b.co", none⟩ "a@b.co" rfl rfl
    (by decide) (Or.inl rfl)⟩

/-- C2 counterexample: when the first connection attempt fails, `getDb`
propagates the error but leaves the module-level `client` set (not
null), so the following call attempts no connection — it silently
returns a handle backed by the never-connected client even when the
database has become reachable. -/
theorem getDb_failed_connect_counterexample :
    (getDb "portfolio" false ⟨none⟩).result = .err ∧
    (getDb "portfolio" false ⟨none⟩).state ≠ ⟨none⟩ ∧
    (getDb "portfolio" true (getDb "portfolio" false ⟨none⟩).state).attemptedConnect
      = false ∧
    (getDb "portfolio" true (getDb "portfolio" false ⟨none⟩).state).result =
      .ok false "portfolio" := by
  refine ⟨rfl, by decide, rfl, rfl⟩

/-- C2 (amended): `getDb` is idempotent after a successful first call —
every later call returns a handle backed by the same memoized connected
client without attempting a connection — and on a failed first attempt
the error is propagated to the caller, but the memoized client stays
set (non-null) in its unconnected state, so the next call does not
retry the connection and returns a handle backed by that unconnected
client. -/
theorem getDb_memoization_amended (dbName : String) (ok1 ok2 : Bool) (st : DbState)
    (c : MongoClientM) :
    (st.client = some c →
      getDb dbName ok1 st = ⟨.ok c.connected dbName, st, false⟩) ∧
    (st.client = none → ok1 = true →
      getDb dbName ok1 st = ⟨.ok true dbName, ⟨some ⟨true⟩⟩, true⟩ ∧
      ∀ okN, getDb dbName okN ⟨some ⟨true⟩⟩ = ⟨.ok true dbName, ⟨some ⟨true⟩⟩, false⟩) ∧
    (st.client = none → ok1 = false →
      (getDb dbName ok1 st).result = .err ∧
      (getDb dbName ok1 st).state = ⟨some ⟨false⟩⟩ ∧
      getDb dbName ok2 ⟨some ⟨false⟩⟩ = ⟨.ok false dbName, ⟨some ⟨false⟩⟩, false⟩) := by
  refine ⟨?_, ?_, ?_⟩
  · intro hc
    obtain ⟨oc⟩ := st
    cases hc
    rfl
  · intro hc hok
    obtain ⟨oc⟩ := st
    cases hc
    cases hok
    exact ⟨rfl, fun okN => rfl⟩
  · intro hc hok
    obtain ⟨oc⟩ := st
    cases hc
    cases hok
    exact ⟨rfl, rfl, rfl⟩

/-- Witness for the amended C2: a successful first call from the empty
state, then a failed first call from the empty state. -/
theorem getDb_memoization_amended_witness :
    (getDb "portfolio" true ⟨none⟩ = ⟨.ok true "portfolio", ⟨some ⟨true⟩⟩, true⟩ ∧
      ∀ okN, getDb "portfolio" okN ⟨some ⟨true⟩⟩ =
        ⟨.ok true "portfolio", ⟨some ⟨true⟩⟩, false⟩) ∧
    ((getDb "portfolio" false ⟨none⟩).result = .err ∧
      (getDb "portfolio" false ⟨none⟩).state = ⟨some ⟨false⟩⟩ ∧
      getDb "portfolio" true ⟨some ⟨false⟩⟩ =
        ⟨.ok false "portfolio", ⟨some ⟨false⟩⟩, false⟩) := by
  have h1 := (getDb_memoization_amended "portfolio" true true ⟨none⟩ ⟨true⟩).2.1 rfl rfl
  have h2 := (getDb_memoization_amended "portfolio" false true ⟨none⟩ ⟨true⟩).2.2 rfl rfl
  exact ⟨h1, h2⟩
